import Mathlib

/-!
Shallow embedding of the MoodChef recommendation engine
(`POST /api/get-recipes` handler in the backend server file).

The backing store is modelled as a `List Recipe` in the natural return order
of the store; `Recipe.find(query).limit(10)` becomes `(store.filter pred).take 10`.
JavaScript `Array.prototype.sort` is stable (ES2019), so the
`sort((a, b) => b.matchScore - a.matchScore)` call is modelled by a stable
insertion sort descending on `matchScore`.
-/

set_option maxRecDepth 100000

namespace MoodChef

/-- A recipe document, after the mongoose `recipeSchema`. -/
structure Recipe where
  name : String
  moodTags : List String
  ingredients : List String
  description : String
  cookingTime : String
  instructions : String
  moodDescription : String
deriving DecidableEq, Repr

/-- A recipe together with the two derived fields added by the scoring map. -/
structure ScoredRecipe where
  recipe : Recipe
  matchScore : Nat
  matchingIngredients : List String
deriving DecidableEq, Repr

/-- The `mood.toLowerCase()` normalization, written as a structural map over
the characters of the string so that it evaluates by kernel reduction. -/
def lowercase (s : String) : String :=
  ⟨s.data.map Char.toLower⟩

/-- Predicate of the primary Mongo query:
`moodTags: { $in: [mood.toLowerCase()] }` AND `ingredients: { $in: ingredients }`. -/
def primaryMatch (mood : String) (ingredients : List String) (r : Recipe) : Bool :=
  r.moodTags.contains (lowercase mood) && r.ingredients.any (fun i => ingredients.contains i)

/-- Predicate of the fallback (broad) Mongo query: `ingredients: { $in: ingredients }`. -/
def fallbackMatch (ingredients : List String) (r : Recipe) : Bool :=
  r.ingredients.any (fun i => ingredients.contains i)

/-- The call `Recipe.find(query).limit(10)` on the primary query. -/
def primaryQuery (store : List Recipe) (mood : String) (ingredients : List String) :
    List Recipe :=
  (store.filter (primaryMatch mood ingredients)).take 10

/-- The call `Recipe.find(broadQuery).limit(10)` on the fallback query. -/
def fallbackQuery (store : List Recipe) (ingredients : List String) : List Recipe :=
  (store.filter (fallbackMatch ingredients)).take 10

/-- The recipes the handler ends up scoring: the primary query result, or the
fallback query result when the primary one came back empty. -/
def fetchedRecipes (store : List Recipe) (mood : String) (ingredients : List String) :
    List Recipe :=
  let primary := primaryQuery store mood ingredients
  if primary.isEmpty then fallbackQuery store ingredients else primary

/-- The scoring map body: `matchingIngredients` is
`recipe.ingredients.filter(i => ingredients.includes(i))` and
`matchScore` is its length. -/
def scoreRecipe (ingredients : List String) (r : Recipe) : ScoredRecipe :=
  { recipe := r,
    matchScore := (r.ingredients.filter (fun i => ingredients.contains i)).length,
    matchingIngredients := r.ingredients.filter (fun i => ingredients.contains i) }

/-- The list `scoredRecipes = recipes.map(...)` built by the handler. -/
def scoredRecipes (store : List Recipe) (mood : String) (ingredients : List String) :
    List ScoredRecipe :=
  (fetchedRecipes store mood ingredients).map (scoreRecipe ingredients)

/-- Insert `x` into a list sorted non-increasingly by `matchScore`, keeping `x`
after strictly higher scores and before every score that is not higher: the
insertion step of a stable descending sort. -/
def insertDesc (x : ScoredRecipe) : List ScoredRecipe → List ScoredRecipe
  | [] => [x]
  | y :: ys => if x.matchScore < y.matchScore then y :: insertDesc x ys else x :: y :: ys

/-- Stable sort descending on `matchScore`: the model of the JavaScript
`sort((a, b) => b.matchScore - a.matchScore)` (stable per ES2019). -/
def sortByScoreDesc : List ScoredRecipe → List ScoredRecipe
  | [] => []
  | x :: xs => insertDesc x (sortByScoreDesc xs)

/-- The successful result of the handler for a validated request:
score, sort descending by score, `slice(0, 3)`. -/
def recommend (store : List Recipe) (mood : String) (ingredients : List String) :
    List ScoredRecipe :=
  (sortByScoreDesc (scoredRecipes store mood ingredients)).take 3

/-- The first recipe of the seeded catalog, named for use in concrete
examples. -/
def comfortMacAndCheese : Recipe :=
  { name := "Comfort Mac and Cheese",
    moodTags := ["sad", "stressed"],
    ingredients := ["pasta", "cheese", "milk", "butter", "flour"],
    description := "Creamy, comforting mac and cheese that warms your heart and soul.",
    cookingTime := "25 minutes",
    instructions := "1. Cook pasta according to package directions. 2. Make cheese sauce with butter, flour, milk, and cheese. 3. Mix pasta with sauce. 4. Bake until golden and bubbly.",
    moodDescription := "Perfect comfort food to lift your spirits" }

/-- The fixed catalog inserted by `POST /api/seed-recipes`, in insertion
order (the natural return order of the store). -/
def sampleRecipes : List Recipe :=
  [ comfortMacAndCheese,
    { name := "Rainbow Veggie Stir-Fry",
      moodTags := ["happy", "bored"],
      ingredients := ["bell pepper", "broccoli", "carrot", "garlic", "ginger", "rice"],
      description := "Colorful and vibrant stir-fry packed with fresh vegetables and bold flavors.",
      cookingTime := "15 minutes",
      instructions := "1. Heat oil in wok. 2. Add garlic and ginger. 3. Stir-fry vegetables until crisp-tender. 4. Season with soy sauce and serve over rice.",
      moodDescription := "Bright colors and fresh flavors to match your happy mood" },
    { name := "Soothing Tomato Basil Soup",
      moodTags := ["stressed", "sick"],
      ingredients := ["tomato", "onion", "garlic", "herbs", "milk"],
      description := "Warm and soothing soup that calms your nerves and nourishes your body.",
      cookingTime := "30 minutes",
      instructions := "1. Saut\xe9 onion and garlic. 2. Add tomatoes and herbs. 3. Simmer and blend until smooth. 4. Stir in milk and season to taste.",
      moodDescription := "Gentle and calming, perfect for stress relief" },
    { name := "Quick Avocado Toast",
      moodTags := ["lazy", "happy"],
      ingredients := ["bread", "cheese", "tomato", "herbs"],
      description := "Simple and satisfying toast that requires minimal effort but maximum flavor.",
      cookingTime := "5 minutes",
      instructions := "1. Toast bread. 2. Mash avocado with seasonings. 3. Spread on toast. 4. Top with tomato and herbs.",
      moodDescription := "Easy and quick when you don\x27t feel like cooking" },
    { name := "Romantic Mushroom Risotto",
      moodTags := ["love", "happy"],
      ingredients := ["rice", "mushroom", "onion", "garlic", "cheese"],
      description := "Creamy, elegant risotto perfect for a romantic dinner at home.",
      cookingTime := "45 minutes",
      instructions := "1. Saut\xe9 mushrooms and set aside. 2. Cook onion and garlic. 3. Add rice and cook until creamy. 4. Stir in mushrooms and cheese.",
      moodDescription := "Elegant and romantic, perfect for date night" },
    { name := "Healing Ginger Lentil Soup",
      moodTags := ["sick", "stressed"],
      ingredients := ["lentils", "ginger", "garlic", "onion", "carrot"],
      description := "Nourishing soup packed with healing spices and protein-rich lentils.",
      cookingTime := "35 minutes",
      instructions := "1. Saut\xe9 aromatics. 2. Add lentils and water. 3. Simmer until tender. 4. Season with healing spices.",
      moodDescription := "Healing and nourishing for when you\x27re under the weather" },
    { name := "Spicy Chickpea Curry",
      moodTags := ["bored", "happy"],
      ingredients := ["chickpeas", "tomato", "onion", "garlic", "ginger", "spices"],
      description := "Bold and flavorful curry that awakens your taste buds and fights boredom.",
      cookingTime := "40 minutes",
      instructions := "1. Build spice base with onion, garlic, ginger. 2. Add tomatoes and spices. 3. Add chickpeas and simmer. 4. Garnish with fresh herbs.",
      moodDescription := "Exciting flavors to spice up your day" },
    { name := "Lazy Day Pasta Primavera",
      moodTags := ["lazy", "happy"],
      ingredients := ["pasta", "broccoli", "bell pepper", "garlic", "olive oil"],
      description := "Simple pasta dish with fresh vegetables that\x27s easy to make but delicious.",
      cookingTime := "20 minutes",
      instructions := "1. Cook pasta and vegetables together. 2. Toss with olive oil and garlic. 3. Season simply. 4. Serve immediately.",
      moodDescription := "Minimal effort, maximum satisfaction" },
    { name := "Mood-Boosting Smoothie Bowl",
      moodTags := ["sad", "happy"],
      ingredients := ["oats", "milk", "yogurt"],
      description := "Creamy and nutritious bowl topped with mood-boosting ingredients.",
      cookingTime := "10 minutes",
      instructions := "1. Blend frozen fruits with yogurt. 2. Pour into bowl. 3. Top with granola and fresh fruits. 4. Drizzle with honey.",
      moodDescription := "Nutritious and colorful to brighten your mood" },
    { name := "Comforting Potato Soup",
      moodTags := ["sad", "stressed", "sick"],
      ingredients := ["potato", "onion", "garlic", "milk", "butter"],
      description := "Creamy, hearty soup that provides ultimate comfort and warmth.",
      cookingTime := "30 minutes",
      instructions := "1. Saut\xe9 onion and garlic. 2. Add potatoes and broth. 3. Simmer until tender. 4. Blend partially and add cream.",
      moodDescription := "Warm and comforting, like a hug in a bowl" },
    { name := "Energizing Quinoa Salad",
      moodTags := ["happy", "bored"],
      ingredients := ["quinoa", "cucumber", "tomato", "herbs", "olive oil"],
      description := "Fresh and energizing salad packed with protein and vibrant vegetables.",
      cookingTime := "25 minutes",
      instructions := "1. Cook quinoa and let cool. 2. Chop fresh vegetables. 3. Mix with herbs and dressing. 4. Let flavors meld before serving.",
      moodDescription := "Fresh and energizing to boost your vitality" },
    { name := "Love-Filled Stuffed Bell Peppers",
      moodTags := ["love", "happy"],
      ingredients := ["bell pepper", "rice", "mushroom", "cheese", "herbs"],
      description := "Beautiful stuffed peppers that show love through every colorful bite.",
      cookingTime := "50 minutes",
      instructions := "1. Hollow out bell peppers. 2. Prepare rice and mushroom filling. 3. Stuff peppers and top with cheese. 4. Bake until tender.",
      moodDescription := "Made with love, perfect for sharing with someone special" },
    { name := "Simple Herb Omelette",
      moodTags := ["lazy", "happy"],
      ingredients := ["eggs", "herbs", "cheese", "butter"],
      description := "Fluffy omelette with fresh herbs that\x27s quick and satisfying.",
      cookingTime := "8 minutes",
      instructions := "1. Beat eggs with herbs. 2. Heat butter in pan. 3. Cook omelette until set. 4. Add cheese and fold.",
      moodDescription := "Quick and easy comfort food" },
    { name := "Warming Golden Turmeric Rice",
      moodTags := ["sick", "stressed"],
      ingredients := ["rice", "turmeric", "ginger", "garlic", "coconut oil"],
      description := "Anti-inflammatory golden rice that soothes and heals from within.",
      cookingTime := "25 minutes",
      instructions := "1. Heat coconut oil and add spices. 2. Add rice and toast briefly. 3. Add water and simmer. 4. Let steam and fluff.",
      moodDescription := "Healing golden goodness to restore your energy" },
    { name := "Adventure Spice Mix Roasted Vegetables",
      moodTags := ["bored", "happy"],
      ingredients := ["potato", "carrot", "broccoli", "spices", "olive oil"],
      description := "Exciting roasted vegetables with bold spice combinations to cure boredom.",
      cookingTime := "35 minutes",
      instructions := "1. Cut vegetables uniformly. 2. Toss with oil and spice mix. 3. Roast until caramelized. 4. Garnish with fresh herbs.",
      moodDescription := "Bold flavors and textures to excite your palate" } ]

/-- The JSON body of a `POST /api/get-recipes` request. The handler destructures
only `mood` and `ingredients`; a `limit` field may be present in the JSON but is
never read. -/
structure RequestBody where
  mood : Option String
  ingredients : Option (List String)
  limit : Option Nat
deriving DecidableEq, Repr

/-- The two responses the handler can produce on the non-exceptional path. -/
inductive ApiResponse where
  | badRequest : String → ApiResponse
  | ok : List ScoredRecipe → ApiResponse
deriving DecidableEq, Repr

/-- The guard `!mood || !ingredients || ingredients.length === 0`
(for a string, falsy means absent or empty). -/
def invalidRequest (body : RequestBody) : Bool :=
  match body.mood, body.ingredients with
  | none, _ => true
  | _, none => true
  | some m, some l => decide (m = "") || l.isEmpty

/-- The `POST /api/get-recipes` handler (store queries assumed to succeed). -/
def getRecipesHandler (store : List Recipe) (body : RequestBody) : ApiResponse :=
  if invalidRequest body then
    .badRequest "Mood and ingredients are required"
  else
    .ok (recommend store (body.mood.getD "") (body.ingredients.getD []))

/-! ### Helper lemmas about the stable descending sort -/

theorem mem_insertDesc {s x : ScoredRecipe} {l : List ScoredRecipe} :
    s ∈ insertDesc x l ↔ s = x ∨ s ∈ l := by
  induction l with
  | nil => simp [insertDesc]
  | cons y ys ih =>
    simp only [insertDesc]
    split
    · simp only [List.mem_cons, ih]
      tauto
    · simp only [List.mem_cons]

theorem insertDesc_perm (x : ScoredRecipe) (l : List ScoredRecipe) :
    (insertDesc x l).Perm (x :: l) := by
  induction l with
  | nil => simp [insertDesc]
  | cons y ys ih =>
    simp only [insertDesc]
    split
    · exact (ih.cons y).trans (List.Perm.swap x y ys)
    · exact List.Perm.refl _

theorem sortByScoreDesc_perm (l : List ScoredRecipe) : (sortByScoreDesc l).Perm l := by
  induction l with
  | nil => exact List.Perm.refl _
  | cons x xs ih => exact (insertDesc_perm x (sortByScoreDesc xs)).trans (ih.cons x)

theorem pairwise_insertDesc {x : ScoredRecipe} {l : List ScoredRecipe}
    (h : l.Pairwise (fun a b => b.matchScore ≤ a.matchScore)) :
    (insertDesc x l).Pairwise (fun a b => b.matchScore ≤ a.matchScore) := by
  induction l with
  | nil => simp [insertDesc]
  | cons y ys ih =>
    rw [List.pairwise_cons] at h
    simp only [insertDesc]
    split
    · rename_i hlt
      rw [List.pairwise_cons]
      refine ⟨fun z hz => ?_, ih h.2⟩
      rcases mem_insertDesc.mp hz with hz | hz
      · exact hz ▸ Nat.le_of_lt hlt
      · exact h.1 z hz
    · rename_i hge
      rw [List.pairwise_cons]
      refine ⟨fun z hz => ?_, List.pairwise_cons.mpr h⟩
      rcases List.mem_cons.mp hz with hz | hz
      · exact hz ▸ Nat.le_of_not_lt hge
      · exact Nat.le_trans (h.1 z hz) (Nat.le_of_not_lt hge)

theorem sortByScoreDesc_pairwise (l : List ScoredRecipe) :
    (sortByScoreDesc l).Pairwise (fun a b => b.matchScore ≤ a.matchScore) := by
  induction l with
  | nil => simp [sortByScoreDesc]
  | cons x xs ih => exact pairwise_insertDesc ih

theorem filter_insertDesc (x : ScoredRecipe) (l : List ScoredRecipe) (k : Nat) :
    (insertDesc x l).filter (fun s => s.matchScore == k) =
      if x.matchScore = k then x :: l.filter (fun s => s.matchScore == k)
      else l.filter (fun s => s.matchScore == k) := by
  induction l with
  | nil =>
    by_cases hk : x.matchScore = k <;> simp [insertDesc, List.filter_cons, hk]
  | cons y ys ih =>
    simp only [insertDesc]
    split
    · rename_i hlt
      by_cases hk : x.matchScore = k
      · have hy : ¬ y.matchScore = k := by omega
        simp [List.filter_cons, hk, hy, ih]
      · simp only [List.filter_cons, ih, if_neg hk]
    · rename_i hge
      by_cases hk : x.matchScore = k
      · simp [List.filter_cons, hk]
      · simp [List.filter_cons, hk]

theorem filter_sortByScoreDesc (l : List ScoredRecipe) (k : Nat) :
    (sortByScoreDesc l).filter (fun s => s.matchScore == k) =
      l.filter (fun s => s.matchScore == k) := by
  induction l with
  | nil => rfl
  | cons x xs ih =>
    simp only [sortByScoreDesc, filter_insertDesc, ih, List.filter_cons]
    by_cases hk : x.matchScore = k
    · simp [hk]
    · simp [hk]

/-! ### Helper lemmas about the queries -/

theorem mem_primaryQuery {store : List Recipe} {mood : String}
    {ingredients : List String} {r : Recipe}
    (h : r ∈ primaryQuery store mood ingredients) :
    lowercase mood ∈ r.moodTags ∧ ∃ i ∈ r.ingredients, i ∈ ingredients := by
  have h' := List.mem_filter.mp (List.mem_of_mem_take h)
  have hm := h'.2
  simp only [primaryMatch, Bool.and_eq_true, List.any_eq_true] at hm
  obtain ⟨h1, i, hi, hi'⟩ := hm
  exact ⟨List.elem_iff.mp h1, i, hi, List.elem_iff.mp hi'⟩

theorem mem_fallbackQuery {store : List Recipe} {ingredients : List String}
    {r : Recipe} (h : r ∈ fallbackQuery store ingredients) :
    ∃ i ∈ r.ingredients, i ∈ ingredients := by
  have h' := List.mem_filter.mp (List.mem_of_mem_take h)
  have hm := h'.2
  simp only [fallbackMatch, List.any_eq_true] at hm
  obtain ⟨i, hi, hi'⟩ := hm
  exact ⟨i, hi, List.elem_iff.mp hi'⟩

theorem mem_fetchedRecipes_overlap {store : List Recipe} {mood : String}
    {ingredients : List String} {r : Recipe}
    (h : r ∈ fetchedRecipes store mood ingredients) :
    ∃ i ∈ r.ingredients, i ∈ ingredients := by
  simp only [fetchedRecipes] at h
  split at h
  · exact mem_fallbackQuery h
  · exact (mem_primaryQuery h).2

/-! ### Claim theorems -/

/-- C1: for every request with non-empty mood and ingredients, the engine first
runs the primary query, fetching at most 10 recipes whose moodTags contain the
lowercased mood and whose ingredient set shares at least one element with the
requested ingredients; if and only if that primary query returns zero recipes,
it then runs the fallback query, fetching at most 10 recipes whose ingredient
set shares at least one element with the requested ingredients, ignoring mood;
the scored output is computed from the results of whichever query was used. -/
theorem C1_query_control_flow (store : List Recipe) (mood : String)
    (ingredients : List String) :
    (primaryQuery store mood ingredients).length ≤ 10 ∧
    (∀ r ∈ primaryQuery store mood ingredients,
      lowercase mood ∈ r.moodTags ∧ ∃ i ∈ r.ingredients, i ∈ ingredients) ∧
    (fallbackQuery store ingredients).length ≤ 10 ∧
    (∀ r ∈ fallbackQuery store ingredients, ∃ i ∈ r.ingredients, i ∈ ingredients) ∧
    (primaryQuery store mood ingredients ≠ [] →
      fetchedRecipes store mood ingredients = primaryQuery store mood ingredients) ∧
    (primaryQuery store mood ingredients = [] →
      fetchedRecipes store mood ingredients = fallbackQuery store ingredients) ∧
    (mood ≠ "" → ingredients ≠ [] →
      getRecipesHandler store ⟨some mood, some ingredients, none⟩ =
        .ok ((sortByScoreDesc ((fetchedRecipes store mood ingredients).map
          (scoreRecipe ingredients))).take 3)) := by
  refine ⟨?_, ?_, ?_, ?_, ?_, ?_, ?_⟩
  · simp [primaryQuery, List.length_take]
  · exact fun r hr => mem_primaryQuery hr
  · simp [fallbackQuery, List.length_take]
  · exact fun r hr => mem_fallbackQuery hr
  · intro hne
    simp [fetchedRecipes, List.isEmpty_iff, hne]
  · intro he
    simp [fetchedRecipes, List.isEmpty_iff, he]
  · intro hm hi
    have hinv : invalidRequest ⟨some mood, some ingredients, none⟩ = false := by
      simp [invalidRequest, hm, List.isEmpty_iff, hi]
    simp [getRecipesHandler, hinv, recommend, scoredRecipes]

/-- C1 witness: the theorem applied at the seeded catalog with a concrete
valid request, discharging the non-emptiness hypotheses. -/
theorem C1_witness :
    getRecipesHandler sampleRecipes ⟨some "stressed", some ["pasta"], none⟩ =
      .ok ((sortByScoreDesc ((fetchedRecipes sampleRecipes "stressed" ["pasta"]).map
        (scoreRecipe ["pasta"]))).take 3) :=
  (C1_query_control_flow sampleRecipes "stressed" ["pasta"]).2.2.2.2.2.2
    (by decide) (by decide)

/-- C2: for every recipe fetched by whichever query fired, the engine sets
matchScore to the size of the intersection of the ingredient set of the recipe
with the requested ingredients set, and matchingIngredients to exactly that
intersection in the order the ingredients appear in the own ingredient list of
the recipe; whenever at least one requested ingredient is present in the
recipe ingredients, matchScore is at least 1. -/
theorem C2_scoring (store : List Recipe) (mood : String) (ingredients : List String)
    (r : Recipe) (hr : r ∈ fetchedRecipes store mood ingredients)
    (hnd : r.ingredients.Nodup) :
    scoreRecipe ingredients r ∈ scoredRecipes store mood ingredients ∧
    (scoreRecipe ingredients r).matchingIngredients =
      r.ingredients.filter (fun i => ingredients.contains i) ∧
    (scoreRecipe ingredients r).matchingIngredients.Sublist r.ingredients ∧
    (∀ x, x ∈ (scoreRecipe ingredients r).matchingIngredients ↔
      x ∈ r.ingredients ∧ x ∈ ingredients) ∧
    (scoreRecipe ingredients r).matchScore =
      (scoreRecipe ingredients r).matchingIngredients.length ∧
    (scoreRecipe ingredients r).matchScore =
      (r.ingredients.toFinset ∩ ingredients.toFinset).card ∧
    ((∃ i ∈ r.ingredients, i ∈ ingredients) →
      1 ≤ (scoreRecipe ingredients r).matchScore) := by
  refine ⟨List.mem_map_of_mem _ hr, rfl, List.filter_sublist _, ?_, rfl, ?_, ?_⟩
  · intro x
    simp [scoreRecipe, List.mem_filter, List.elem_iff]
  · have hsub : ((r.ingredients.filter (fun i => ingredients.contains i)).toFinset :
        Finset String) = r.ingredients.toFinset ∩ ingredients.toFinset := by
      ext x
      simp [List.mem_filter, List.elem_iff]
    have hlen := List.toFinset_card_of_nodup (hnd.filter (fun i => ingredients.contains i))
    simp only [scoreRecipe]
    rw [← hsub, hlen]
  · rintro ⟨i, hi, hi'⟩
    have : i ∈ r.ingredients.filter (fun i => ingredients.contains i) :=
      List.mem_filter.mpr ⟨hi, List.elem_iff.mpr hi'⟩
    simpa [scoreRecipe] using List.length_pos_of_mem this

/-- C2 witness: the theorem applied to the first seeded recipe under the
example request, with membership and Nodup discharged by evaluation. -/
theorem C2_witness :
    (scoreRecipe ["pasta", "cheese", "milk", "butter", "flour"] comfortMacAndCheese).matchScore =
      (comfortMacAndCheese.ingredients.toFinset ∩
        (["pasta", "cheese", "milk", "butter", "flour"] : List String).toFinset).card ∧
    1 ≤ (scoreRecipe ["pasta", "cheese", "milk", "butter", "flour"] comfortMacAndCheese).matchScore :=
  ⟨(C2_scoring sampleRecipes "stressed" ["pasta", "cheese", "milk", "butter", "flour"]
      comfortMacAndCheese (by decide) (by decide)).2.2.2.2.2.1,
   (C2_scoring sampleRecipes "stressed" ["pasta", "cheese", "milk", "butter", "flour"]
      comfortMacAndCheese (by decide) (by decide)).2.2.2.2.2.2
      ⟨"pasta", by decide, by decide⟩⟩

/-- C3 counterexample: the handler has no limit parameter. A request carrying
`limit: 1` is answered exactly like one without it, and the response holds
3 recipes, violating the claimed bound `length <= limit`. -/
theorem C3_counterexample :
    getRecipesHandler sampleRecipes
        ⟨some "stressed", some ["pasta", "cheese", "milk", "butter", "flour"], some 1⟩ =
      getRecipesHandler sampleRecipes
        ⟨some "stressed", some ["pasta", "cheese", "milk", "butter", "flour"], none⟩ ∧
    getRecipesHandler sampleRecipes
        ⟨some "stressed", some ["pasta", "cheese", "milk", "butter", "flour"], some 1⟩ =
      .ok (recommend sampleRecipes "stressed" ["pasta", "cheese", "milk", "butter", "flour"]) ∧
    (recommend sampleRecipes "stressed" ["pasta", "cheese", "milk", "butter", "flour"]).length
      = 3 ∧
    ¬ (3 : Nat) ≤ 1 := by
  refine ⟨rfl, rfl, by decide, by decide⟩

/-- C3 amended: the operation accepts no limit parameter; any `limit` field in
the request body is ignored and the hard-coded limit 3 is always used: the
result is the first 3 entries of the sorted scored list, so its length is at
most 3. -/
theorem C3_fixed_limit_three (store : List Recipe) (m : Option String)
    (i : Option (List String)) (lim₁ lim₂ : Option Nat) :
    getRecipesHandler store ⟨m, i, lim₁⟩ = getRecipesHandler store ⟨m, i, lim₂⟩ ∧
    (∀ l, getRecipesHandler store ⟨m, i, lim₁⟩ = .ok l →
      l = (sortByScoreDesc (scoredRecipes store (m.getD "") (i.getD []))).take 3 ∧
      l.length ≤ 3) := by
  refine ⟨rfl, fun l hl => ?_⟩
  simp only [getRecipesHandler] at hl
  split at hl
  · exact absurd hl (by simp)
  · have hrec := (ApiResponse.ok.injEq _ _).mp hl
    subst hrec
    exact ⟨rfl, by simp [recommend, List.length_take]⟩

/-- C3 witness: the amended theorem applied at the seeded catalog with a
request carrying a `limit` field, discharging the success hypothesis. -/
theorem C3_witness :
    recommend sampleRecipes "happy" ["rice"] =
      (sortByScoreDesc (scoredRecipes sampleRecipes "happy" ["rice"])).take 3 ∧
    (recommend sampleRecipes "happy" ["rice"]).length ≤ 3 :=
  (C3_fixed_limit_three sampleRecipes (some "happy") (some ["rice"]) (some 7) none).2
    (recommend sampleRecipes "happy" ["rice"]) rfl

/-- C4: for every request, the returned list is sorted in non-increasing order
of matchScore, and entries with equal matchScore appear in the same relative
order in which the store returned them (stable sort, no secondary key): for
each score value, the output entries with that score form an initial segment
of the scored list entries with that score, in order. -/
theorem C4_sorted_stable (store : List Recipe) (mood : String)
    (ingredients : List String) :
    (recommend store mood ingredients).Pairwise
      (fun a b => b.matchScore ≤ a.matchScore) ∧
    (∀ k : Nat, ∃ t,
      (recommend store mood ingredients).filter (fun s => s.matchScore == k) ++ t =
        (scoredRecipes store mood ingredients).filter (fun s => s.matchScore == k)) ∧
    (∀ (i : Nat) (h : i + 1 < (recommend store mood ingredients).length),
      ((recommend store mood ingredients).get ⟨i + 1, h⟩).matchScore ≤
        ((recommend store mood ingredients).get ⟨i, Nat.lt_of_succ_lt h⟩).matchScore) := by
  have hout : (recommend store mood ingredients).Pairwise
      (fun a b => b.matchScore ≤ a.matchScore) :=
    (sortByScoreDesc_pairwise (scoredRecipes store mood ingredients)).sublist
      (List.take_sublist 3 _)
  refine ⟨hout, fun k => ?_, fun i h => ?_⟩
  · refine ⟨((sortByScoreDesc (scoredRecipes store mood ingredients)).drop 3).filter
      (fun s => s.matchScore == k), ?_⟩
    simp only [recommend]
    rw [← List.filter_append, List.take_append_drop, filter_sortByScoreDesc]
  · exact List.pairwise_iff_get.mp hout ⟨i, Nat.lt_of_succ_lt h⟩ ⟨i + 1, h⟩
      (Nat.lt_succ_self i)

/-- C4 witness: the theorem applied at the seeded catalog for the example
request, discharging the index-bound hypothesis at position 0. -/
theorem C4_witness :
    ((recommend sampleRecipes "stressed" ["pasta", "cheese", "milk", "butter", "flour"]).get
        ⟨1, by decide⟩).matchScore ≤
      ((recommend sampleRecipes "stressed" ["pasta", "cheese", "milk", "butter", "flour"]).get
        ⟨0, by decide⟩).matchScore :=
  (C4_sorted_stable sampleRecipes "stressed"
    ["pasta", "cheese", "milk", "butter", "flour"]).2.2 0 (by decide)

/-- C5: when both the primary and the fallback query return zero recipes, the
operation succeeds and returns the empty list rather than signalling an
error. -/
theorem C5_no_matches_empty_ok (store : List Recipe) (mood : String)
    (ingredients : List String) (hm : mood ≠ "") (hi : ingredients ≠ [])
    (hp : primaryQuery store mood ingredients = [])
    (hf : fallbackQuery store ingredients = []) :
    getRecipesHandler store ⟨some mood, some ingredients, none⟩ = .ok [] := by
  have hinv : invalidRequest ⟨some mood, some ingredients, none⟩ = false := by
    simp [invalidRequest, hm, List.isEmpty_iff, hi]
  simp [getRecipesHandler, hinv, recommend, scoredRecipes, fetchedRecipes, hp, hf,
    sortByScoreDesc]

/-- C5 witness: the theorem applied at the seeded catalog with an ingredient
that no recipe contains, discharging all four hypotheses by evaluation. -/
theorem C5_witness :
    getRecipesHandler sampleRecipes ⟨some "happy", some ["nonexistent-item"], none⟩ =
      .ok [] :=
  C5_no_matches_empty_ok sampleRecipes "happy" ["nonexistent-item"]
    (by decide) (by decide) (by decide) (by decide)

/-- C6: the request is rejected with the 400 error exactly when the mood is
missing or empty or the ingredients collection is missing or empty; with a
non-empty mood and non-empty ingredients the rejection branch is never taken
and the scored result is returned. -/
theorem C6_validation (store : List Recipe) (body : RequestBody) :
    (invalidRequest body = true ↔
      (body.mood = none ∨ body.mood = some "" ∨
        body.ingredients = none ∨ body.ingredients = some [])) ∧
    (invalidRequest body = true →
      getRecipesHandler store body = .badRequest "Mood and ingredients are required") ∧
    (invalidRequest body = false →
      getRecipesHandler store body =
        .ok (recommend store (body.mood.getD "") (body.ingredients.getD []))) ∧
    (∀ m l, body.mood = some m → m ≠ "" → body.ingredients = some l → l ≠ [] →
      getRecipesHandler store body ≠
        .badRequest "Mood and ingredients are required") := by
  obtain ⟨m, i, lim⟩ := body
  refine ⟨?_, ?_, ?_, ?_⟩
  · cases m <;> cases i <;> simp [invalidRequest, List.isEmpty_iff]
  · intro h
    simp [getRecipesHandler, h]
  · intro h
    simp [getRecipesHandler, h]
  · rintro m' l' hm' hne hl' hlne
    simp only at hm' hl'
    subst hm' hl'
    have hinv : invalidRequest ⟨some m', some l', lim⟩ = false := by
      simp [invalidRequest, hne, List.isEmpty_iff, hlne]
    simp [getRecipesHandler, hinv]

/-- C6 witness: the theorem applied to a request with an empty mood (rejected)
and to a fully valid request (accepted), discharging the hypotheses. -/
theorem C6_witness :
    getRecipesHandler sampleRecipes ⟨some "", some ["rice"], none⟩ =
      .badRequest "Mood and ingredients are required" ∧
    getRecipesHandler sampleRecipes ⟨some "happy", some ["rice"], none⟩ =
      .ok (recommend sampleRecipes "happy" ["rice"]) :=
  ⟨(C6_validation sampleRecipes ⟨some "", some ["rice"], none⟩).2.1 (by decide),
   (C6_validation sampleRecipes ⟨some "happy", some ["rice"], none⟩).2.2.1 (by decide)⟩

/-- C7: the operation is deterministic: two invocations with identical request
bodies against an unchanged store produce identical responses. -/
theorem C7_deterministic (store₁ store₂ : List Recipe) (body₁ body₂ : RequestBody)
    (hs : store₁ = store₂) (hb : body₁ = body₂) :
    getRecipesHandler store₁ body₁ = getRecipesHandler store₂ body₂ := by
  rw [hs, hb]

/-- C7 witness: the theorem applied at a concrete store and request. -/
theorem C7_witness :
    getRecipesHandler sampleRecipes ⟨some "happy", some ["rice"], none⟩ =
      getRecipesHandler sampleRecipes ⟨some "happy", some ["rice"], none⟩ :=
  C7_deterministic sampleRecipes sampleRecipes
    ⟨some "happy", some ["rice"], none⟩ ⟨some "happy", some ["rice"], none⟩ rfl rfl

/-- C8: against the seeded catalog, the request mood "stressed" with the
ingredients pasta, cheese, milk, butter, flour is answered by the primary
query, which matches "Comfort Mac and Cheese" (its moodTags include
"stressed" and all of its ingredients appear in the request), and that recipe
appears first in the result with matchScore 5. -/
theorem C8_stressed_example :
    primaryQuery sampleRecipes "stressed" ["pasta", "cheese", "milk", "butter", "flour"]
      ≠ [] ∧
    fetchedRecipes sampleRecipes "stressed" ["pasta", "cheese", "milk", "butter", "flour"] =
      primaryQuery sampleRecipes "stressed" ["pasta", "cheese", "milk", "butter", "flour"] ∧
    comfortMacAndCheese ∈
      primaryQuery sampleRecipes "stressed" ["pasta", "cheese", "milk", "butter", "flour"] ∧
    "stressed" ∈ comfortMacAndCheese.moodTags ∧
    comfortMacAndCheese.ingredients.all
      (fun i => (["pasta", "cheese", "milk", "butter", "flour"] : List String).contains i)
      = true ∧
    (recommend sampleRecipes "stressed" ["pasta", "cheese", "milk", "butter", "flour"]).head?
      = some (scoreRecipe ["pasta", "cheese", "milk", "butter", "flour"]
          comfortMacAndCheese) ∧
    (scoreRecipe ["pasta", "cheese", "milk", "butter", "flour"]
      comfortMacAndCheese).matchScore = 5 ∧
    (recommend sampleRecipes "stressed" ["pasta", "cheese", "milk", "butter", "flour"]).map
        (fun s => (s.recipe.name, s.matchScore)) =
      [("Comfort Mac and Cheese", 5), ("Comforting Potato Soup", 2),
        ("Soothing Tomato Basil Soup", 1)] := by
  decide

/-- C9: every scored recipe in the returned list has matchScore at least 1,
because both queries only return recipes whose ingredient list contains at
least one requested ingredient. -/
theorem C9_min_score_one (store : List Recipe) (mood : String)
    (ingredients : List String) (s : ScoredRecipe)
    (hs : s ∈ recommend store mood ingredients) : 1 ≤ s.matchScore := by
  simp only [recommend] at hs
  have h1 : s ∈ sortByScoreDesc (scoredRecipes store mood ingredients) :=
    List.mem_of_mem_take hs
  have h2 : s ∈ scoredRecipes store mood ingredients :=
    (sortByScoreDesc_perm _).mem_iff.mp h1
  obtain ⟨r, hr, rfl⟩ := List.mem_map.mp h2
  obtain ⟨i, hi, hi'⟩ := mem_fetchedRecipes_overlap hr
  have hmem : i ∈ r.ingredients.filter (fun i => ingredients.contains i) :=
    List.mem_filter.mpr ⟨hi, List.elem_iff.mpr hi'⟩
  simpa [scoreRecipe] using List.length_pos_of_mem hmem

/-- C9 witness: the theorem applied to the top recipe returned for the example
request against the seeded catalog, with membership discharged by
evaluation. -/
theorem C9_witness :
    1 ≤ (scoreRecipe ["pasta", "cheese", "milk", "butter", "flour"]
      comfortMacAndCheese).matchScore :=
  C9_min_score_one sampleRecipes "stressed" ["pasta", "cheese", "milk", "butter", "flour"]
    (scoreRecipe ["pasta", "cheese", "milk", "butter", "flour"] comfortMacAndCheese)
    (by decide)

/-- C10: only the mood is normalized: the primary query depends on the mood
only through its lowercased form, while requested ingredients are matched
against stored ingredients by exact, case-sensitive string equality in both
queries and in the scoring step, so a requested ingredient that is not exactly
equal to any stored one (for example one differing only in letter case)
contributes nothing to either query, to matchScore, or to
matchingIngredients. -/
theorem C10_case_handling (store : List Recipe) (mood₁ mood₂ : String)
    (ingredients : List String) (r : Recipe) (x : String)
    (hmood : lowercase mood₁ = lowercase mood₂) (hx : x ∉ r.ingredients) :
    primaryQuery store mood₁ ingredients = primaryQuery store mood₂ ingredients ∧
    primaryMatch mood₁ (x :: ingredients) r = primaryMatch mood₁ ingredients r ∧
    fallbackMatch (x :: ingredients) r = fallbackMatch ingredients r ∧
    scoreRecipe (x :: ingredients) r = scoreRecipe ingredients r := by
  have hcons : ∀ i ∈ r.ingredients,
      ((x :: ingredients).contains i) = ingredients.contains i := by
    intro i hi
    have hne : i ≠ x := fun he => hx (he ▸ hi)
    rw [List.contains_cons, beq_eq_false_iff_ne.mpr hne, Bool.false_or]
  have hany : (r.ingredients.any fun i => (x :: ingredients).contains i) =
      (r.ingredients.any fun i => ingredients.contains i) := by
    rw [Bool.eq_iff_iff]
    simp only [List.any_eq_true]
    constructor
    · rintro ⟨i, hi, hc⟩
      exact ⟨i, hi, (hcons i hi) ▸ hc⟩
    · rintro ⟨i, hi, hc⟩
      exact ⟨i, hi, (hcons i hi).symm ▸ hc⟩
  have hfilter : r.ingredients.filter (fun i => (x :: ingredients).contains i) =
      r.ingredients.filter (fun i => ingredients.contains i) :=
    List.filter_congr hcons
  refine ⟨?_, ?_, ?_, ?_⟩
  · have hpm : primaryMatch mood₁ ingredients = primaryMatch mood₂ ingredients := by
      funext r'
      simp only [primaryMatch, hmood]
    simp only [primaryQuery, hpm]
  · simp only [primaryMatch, hany]
  · simp only [fallbackMatch, hany]
  · simp only [scoreRecipe, hfilter]

/-- C10 witness: the theorem applied with mood "STRESSED" versus "stressed"
and the requested ingredient "Pasta", which differs from the stored "pasta"
only in case; the hypotheses are discharged by evaluation. -/
theorem C10_witness :
    primaryQuery sampleRecipes "STRESSED" ["pasta", "cheese", "milk", "butter", "flour"] =
      primaryQuery sampleRecipes "stressed" ["pasta", "cheese", "milk", "butter", "flour"] ∧
    primaryMatch "STRESSED" ("Pasta" :: ["pasta", "cheese", "milk", "butter", "flour"])
        comfortMacAndCheese =
      primaryMatch "STRESSED" ["pasta", "cheese", "milk", "butter", "flour"]
        comfortMacAndCheese ∧
    fallbackMatch ("Pasta" :: ["pasta", "cheese", "milk", "butter", "flour"])
        comfortMacAndCheese =
      fallbackMatch ["pasta", "cheese", "milk", "butter", "flour"] comfortMacAndCheese ∧
    scoreRecipe ("Pasta" :: ["pasta", "cheese", "milk", "butter", "flour"])
        comfortMacAndCheese =
      scoreRecipe ["pasta", "cheese", "milk", "butter", "flour"] comfortMacAndCheese :=
  C10_case_handling sampleRecipes "STRESSED" "stressed"
    ["pasta", "cheese", "milk", "butter", "flour"] comfortMacAndCheese "Pasta"
    (by decide) (by decide)

end MoodChef
